import Mathlib

/-!
Shallow embedding of the foxdot-composer streaming agent core
(`src/core/functions.py`, `src/core/session.py`, `src/core/streaming_agent.py`)
and proofs about it.

Modelling conventions, used throughout:
* Python `dict` values of JSON arguments are modelled by the inductive `JVal`;
  argument mappings are association lists with unique keys, in insertion order.
* Python floats are modelled as exact rationals (`ℚ`); the f-string rendering
  of a float is approximated by `pyFloatRepr` (decimal expansion up to six
  places).  No theorem below inspects a rendered float.
* Timestamps (`datetime.now().isoformat()`) are modelled as an explicit `now : Nat`
  parameter where a claim depends on them (layer `created_at` / `modified_at`);
  timestamp fields of chat messages, turns and execution records are omitted,
  no claim mentions them.
* The Execution Sandbox (`FoxDotExecutor.execute`) and Python `eval` of the
  notes string are external effects; they are passed to the dispatcher as
  explicit function parameters (`sandbox`, `evalNotes`).  The list of code
  strings handed to the sandbox is returned so that "the sandbox is never
  invoked" is statable.
* A `KeyError` on a missing required argument is not modelled: required-argument
  accesses fall back to a default value.  Every theorem below evaluates calls
  with their required arguments present.
-/

namespace FoxDotSpec

/-- A JSON-ish argument value as it arrives in a function-call delta
(`args: Dict[str, Any]` in the source): string, integer, float (as `ℚ`),
or a nested object (used for `effects`). -/
inductive JVal where
  | s (v : String)
  | i (v : Int)
  | q (v : ℚ)
  | obj (v : List (String × JVal))

/-- An argument mapping: association list with unique keys, in insertion order
(Python dict semantics). -/
abbrev Args := List (String × JVal)

/-- Python `d.get(k)` on an association list. -/
def dictGet {α : Type} : List (String × α) → String → Option α
  | [], _ => none
  | p :: rest, k => if p.1 = k then some p.2 else dictGet rest k

/-- Python `d[k] = v`: replace the value in place if the key is present
(keys are unique), otherwise append. -/
def dictSet {α : Type} : List (String × α) → String → α → List (String × α)
  | [], k, v => [(k, v)]
  | p :: rest, k, v => if p.1 = k then (k, v) :: rest else p :: dictSet rest k v

/-- Python `del d[k]` (no-op when the key is absent; the source guards the
call with a membership test). -/
def dictDel {α : Type} : List (String × α) → String → List (String × α)
  | [], _ => []
  | p :: rest, k => if p.1 = k then rest else p :: dictDel rest k

/-- Python `{**a, **b}`: the keys of `a` in order with values overridden by
`b`, then the keys of `b` not in `a`, in order. -/
def dictMerge (a b : Args) : Args :=
  a.map (fun p => match dictGet b p.1 with | some v => (p.1, v) | none => p) ++
    b.filter (fun q => (dictGet a q.1).isNone)

/-- Look an argument up (`args.get(k)` / `args[k]`). -/
def getArg (args : Args) (k : String) : Option JVal := dictGet args k

/-- String argument with a default (models both `args[k]` on present string
arguments and `args.get(k, d)`). -/
def argS (args : Args) (k : String) (d : String) : String :=
  match getArg args k with
  | some (JVal.s v) => v
  | _ => d

/-- Optional string argument (`args.get(k)`). -/
def argSOpt (args : Args) (k : String) : Option String :=
  match getArg args k with
  | some (JVal.s v) => some v
  | _ => none

/-- Integer argument with a default. -/
def argI (args : Args) (k : String) (d : Int) : Int :=
  match getArg args k with
  | some (JVal.i v) => v
  | _ => d

/-- Optional integer argument (`args.get(k)`). -/
def argIOpt (args : Args) (k : String) : Option Int :=
  match getArg args k with
  | some (JVal.i v) => some v
  | _ => none

/-- Optional numeric argument as a rational (`args.get(k)` on a float field). -/
def argQOpt (args : Args) (k : String) : Option ℚ :=
  match getArg args k with
  | some (JVal.q v) => some v
  | some (JVal.i v) => some (v : ℚ)
  | _ => none

/-- Raw argument with a default `JVal` (for f-string rendering of
`args.get(k, d)` numeric defaults). -/
def argJ (args : Args) (k : String) (d : JVal) : JVal :=
  match getArg args k with
  | some v => v
  | none => d

/-- Object-valued argument (`args.get('effects', {})`). -/
def argObj (args : Args) (k : String) : Args :=
  match getArg args k with
  | some (JVal.obj l) => l
  | _ => []

/-- Decimal rendering of a rational, approximating Python's repr of a float
with up to six fractional digits (computed directly from the numerator and
denominator).  Only the shape matters: no theorem below inspects a rendered
float. -/
def pyFloatRepr (v : ℚ) : String :=
  let sign := if v.num < 0 then "-" else ""
  let n : Nat := v.num.natAbs
  let d : Nat := v.den
  let ip : Nat := n / d
  let micro : Nat := n % d * 1000000 / d
  if micro = 0 then sign ++ toString ip ++ ".0"
  else
    let ds := (Nat.toDigits 10 (1000000 + micro)).drop 1
    let frac := (ds.reverse.dropWhile (fun c => c = '0')).reverse
    sign ++ toString ip ++ "." ++ String.mk frac

/-- F-string rendering of an argument value.  Nested objects are rendered as
an elided dict; they are never interpolated on any path a theorem inspects. -/
def pyStr : JVal → String
  | JVal.s v => v
  | JVal.i v => toString v
  | JVal.q v => pyFloatRepr v
  | JVal.obj _ => "\x7b...\x7d"

/-- Python `str` of an optional string (f-string of a value that may be
`None`). -/
def optRepr : Option String → String
  | some v => v
  | none => "None"

/-- Python `str(layer.notes)`: `str` of an int list or of `None`. -/
def pyIntListStr : Option (List Int) → String
  | none => "None"
  | some l => "[" ++ String.intercalate ", " (l.map toString) ++ "]"

/-- `PlayerState` from `session.py`. -/
inductive PlayerState where
  | stopped
  | playing
  | paused
deriving DecidableEq

/-- `Layer` from `session.py`: one named music layer.  `created_at` /
`modified_at` are modelled as `Nat` timestamps. -/
structure Layer where
  player_name : String
  synth : String
  code : String
  description : String
  state : PlayerState := PlayerState.playing
  created_at : Nat
  modified_at : Nat
  notes : Option (List Int) := none
  pattern : Option String := none
  dur : Option String := none
  amp : Option ℚ := none
  oct : Option Int := none
  effects : Args := []

/-- `ChatMessage` from `session.py` (timestamp omitted). -/
structure ChatMessage where
  role : String
  content : String
  code_generated : Option String := none
  layers_affected : List String := []

/-- One entry of `FoxDotSession.code_history` (`add_code_execution`;
timestamp omitted). -/
structure CodeExec where
  code : String
  success : Bool
  output : String := ""

/-- `MusicState` from `session.py`.  `active_layers` is an insertion-ordered
association list with unique keys (Python dict). -/
structure MusicState where
  bpm : Int := 120
  scale : String := "major"
  root : String := "C"
  active_layers : List (String × Layer) := []

/-- `FoxDotSession` (the fields the claims touch: music state, chat history,
code-execution history). -/
structure FoxDotSession where
  music_state : MusicState := {}
  chat_history : List ChatMessage := []
  code_history : List CodeExec := []

/-- A fresh session. -/
def emptySession : FoxDotSession := {}

/-- `FoxDotSession.get_layer`. -/
def FoxDotSession.get_layer (s : FoxDotSession) (player_name : String) : Option Layer :=
  dictGet s.music_state.active_layers player_name

/-- `FoxDotSession.add_layer`: build a new `Layer` entirely from the call's
arguments (state `playing`, both timestamps `now`), carry over `created_at`
from the existing layer with the same name when there is one, and store it. -/
def FoxDotSession.add_layer (s : FoxDotSession) (now : Nat)
    (player_name synth code description : String)
    (notes : Option (List Int)) (pattern : Option String) (dur : Option String)
    (amp : Option ℚ) (oct : Option Int) (effects : Args) :
    Layer × FoxDotSession :=
  let layer : Layer :=
    { player_name := player_name, synth := synth, code := code,
      description := description, state := PlayerState.playing,
      created_at := now, modified_at := now,
      notes := notes, pattern := pattern, dur := dur, amp := amp, oct := oct,
      effects := effects }
  let layer' : Layer :=
    match FoxDotSession.get_layer s player_name with
    | some old => { layer with created_at := old.created_at }
    | none => layer
  (layer',
   { s with music_state :=
      { s.music_state with
        active_layers := dictSet s.music_state.active_layers player_name layer' } })

/-- `FoxDotSession.remove_layer` (the transient `state := stopped` write on the
entry that is deleted in the same statement is unobservable and omitted). -/
def FoxDotSession.remove_layer (s : FoxDotSession) (player_name : String) :
    Bool × FoxDotSession :=
  if (dictGet s.music_state.active_layers player_name).isSome then
    (true,
     { s with music_state :=
        { s.music_state with
          active_layers := dictDel s.music_state.active_layers player_name } })
  else (false, s)

/-- `FoxDotSession.update_layer` restricted to the keyword arguments the
`modify_layer` catalog entry could supply (`amp`, `oct`, `effects`); sets
`modified_at`.  Present in the source but never invoked by the dispatcher. -/
def FoxDotSession.update_layer (s : FoxDotSession) (now : Nat) (player_name : String)
    (amp : Option ℚ) (oct : Option Int) (effects : Option Args) :
    Option Layer × FoxDotSession :=
  match FoxDotSession.get_layer s player_name with
  | none => (none, s)
  | some layer =>
      let layer' : Layer :=
        { layer with
          amp := match amp with | some a => some a | none => layer.amp,
          oct := match oct with | some o => some o | none => layer.oct,
          effects := match effects with | some e => e | none => layer.effects,
          modified_at := now }
      (some layer',
       { s with music_state :=
          { s.music_state with
            active_layers := dictSet s.music_state.active_layers player_name layer' } })

/-- `FoxDotSession.set_tempo`. -/
def FoxDotSession.set_tempo (s : FoxDotSession) (bpm : Int) : FoxDotSession :=
  { s with music_state := { s.music_state with bpm := bpm } }

/-- `FoxDotSession.set_scale`. -/
def FoxDotSession.set_scale (s : FoxDotSession) (scale : String) : FoxDotSession :=
  { s with music_state := { s.music_state with scale := scale } }

/-- `FoxDotSession.set_root`. -/
def FoxDotSession.set_root (s : FoxDotSession) (root : String) : FoxDotSession :=
  { s with music_state := { s.music_state with root := root } }

/-- `FoxDotSession.clear_all`. -/
def FoxDotSession.clear_all (s : FoxDotSession) : FoxDotSession :=
  { s with music_state := { s.music_state with active_layers := [] } }

/-- `FoxDotSession.add_chat_message`. -/
def FoxDotSession.add_chat_message (s : FoxDotSession) (role content : String)
    (code_generated : Option String) (layers_affected : List String) : FoxDotSession :=
  { s with chat_history :=
      s.chat_history ++
        [{ role := role, content := content, code_generated := code_generated,
           layers_affected := layers_affected }] }

/-- `FoxDotSession.add_code_execution`. -/
def FoxDotSession.add_code_execution (s : FoxDotSession) (code : String)
    (success : Bool) (output : String) : FoxDotSession :=
  { s with code_history :=
      s.code_history ++ [{ code := code, success := success, output := output }] }

/-- The names of `ALL_FUNCTION_DECLARATIONS` in `functions.py`: the fixed
callable catalog. -/
def catalogNames : List String :=
  ["play_synth", "play_drums", "set_tempo", "set_scale", "set_root",
   "stop_player", "stop_all", "modify_layer", "execute_code", "get_session_state"]

/-- The `modify_layer` branch of `build_foxdot_code` for an existing layer:
merge the optional `amp` / `oct` / `effects` arguments over the stored
layer's values (`args.get(k, layer.k)` / `{**layer.effects, **args_effects}`)
and rebuild the player line from the stored layer (zero and `None` values
are skipped by Python truthiness). -/
def modifyLayerCode (player : String) (args : Args) (layer : Layer) : String :=
  let new_amp : Option ℚ :=
    match getArg args "amp" with
    | some (JVal.q v) => some v
    | some (JVal.i v) => some (v : ℚ)
    | _ => layer.amp
  let new_oct : Option Int :=
    match getArg args "oct" with
    | some (JVal.i v) => some v
    | _ => layer.oct
  let new_effects := dictMerge layer.effects (argObj args "effects")
  let params0 :=
    if layer.synth = "play" then ["\"" ++ optRepr layer.pattern ++ "\""]
    else [pyIntListStr layer.notes]
  let params1 := params0 ++
    (match layer.dur with
     | some d => if d = "" then [] else ["dur=" ++ d]
     | none => [])
  let params2 := params1 ++
    (match new_amp with
     | some a => if a = 0 then [] else ["amp=" ++ pyFloatRepr a]
     | none => [])
  let params3 := params2 ++
    (match new_oct with
     | some o => if o = 0 then [] else ["oct=" ++ toString o]
     | none => [])
  let params := params3 ++ new_effects.map (fun p => p.1 ++ "=" ++ pyStr p.2)
  player ++ " >> " ++ layer.synth ++ "(" ++ String.intercalate ", " params ++ ")"

/-- `build_foxdot_code` from `functions.py`: map a call name plus arguments to
a FoxDot code string (`none` only for `get_session_state`; any name outside
the catalog falls through to the final `"# Unknown function: …"` return). -/
def build_foxdot_code (func_name : String) (args : Args) (session : FoxDotSession) :
    Option String :=
  if func_name = "play_synth" then
    let player := argS args "player" ""
    let synth := argS args "synth" ""
    let notes := argS args "notes" ""
    let dur := argS args "dur" "1"
    let amp := argJ args "amp" (JVal.q (mkRat 7 10))
    let octv := argJ args "oct" (JVal.i 5)
    let effects := argObj args "effects"
    let params := [notes, "dur=" ++ dur, "amp=" ++ pyStr amp, "oct=" ++ pyStr octv]
      ++ effects.map (fun p => p.1 ++ "=" ++ pyStr p.2)
    some (player ++ " >> " ++ synth ++ "(" ++ String.intercalate ", " params ++ ")")
  else if func_name = "play_drums" then
    let player := argS args "player" ""
    let pat := argS args "pattern" ""
    let dur := argS args "dur" "0.5"
    let amp := argJ args "amp" (JVal.q (mkRat 4 5))
    let effects := argObj args "effects"
    let params := ["\"" ++ pat ++ "\"", "dur=" ++ dur, "amp=" ++ pyStr amp]
      ++ effects.map (fun p => p.1 ++ "=" ++ pyStr p.2)
    some (player ++ " >> play(" ++ String.intercalate ", " params ++ ")")
  else if func_name = "set_tempo" then
    some ("Clock.bpm = " ++ pyStr (argJ args "bpm" (JVal.i 0)))
  else if func_name = "set_scale" then
    some ("Scale.default = Scale." ++ argS args "scale" "")
  else if func_name = "set_root" then
    some ("Root.default = \"" ++ argS args "root" "" ++ "\"")
  else if func_name = "stop_player" then
    some (argS args "player" "" ++ ".stop()")
  else if func_name = "stop_all" then
    some "Clock.clear()"
  else if func_name = "modify_layer" then
    let player := argS args "player" ""
    match FoxDotSession.get_layer session player with
    | none => some ("# Error: Player " ++ player ++ " not found")
    | some layer => some (modifyLayerCode player args layer)
  else if func_name = "execute_code" then
    some (argS args "code" "")
  else if func_name = "get_session_state" then
    none
  else
    some ("# Unknown function: " ++ func_name)

/-- The result of one Execution Sandbox run (`ExecutionResult` in
`executor.py`, restricted to the fields `execute_function` reads). -/
structure ExecResult where
  success : Bool
  output : String := ""
  error : Option String := none
  players_affected : List String := []

/-- The result dictionary returned by `execute_function` (keys that a given
branch does not set are `none` / `[]`).  The `state` payload of the
`get_session_state` branch (`session.get_context_summary()`) is omitted: no
claim inspects it. -/
structure FuncResult where
  status : String
  code : Option String := none
  output : Option String := none
  error : Option String := none
  players_affected : List String := []
  message : Option String := none

/-- The session-mutation section of `execute_function` (the `if/elif` chain
between code building and execution), as a function of the call name,
arguments, built code and session.  `evalNotes` models Python
`eval(args['notes'])`. -/
def applyMutation (evalNotes : String → Option (List Int)) (now : Nat)
    (func_name : String) (args : Args) (code : String) (session : FoxDotSession) :
    FoxDotSession :=
  if func_name = "set_tempo" then
    FoxDotSession.set_tempo session (argI args "bpm" 0)
  else if func_name = "set_scale" then
    FoxDotSession.set_scale session (argS args "scale" "")
  else if func_name = "set_root" then
    FoxDotSession.set_root session (argS args "root" "")
  else if func_name = "stop_all" then
    FoxDotSession.clear_all session
  else if func_name = "stop_player" then
    (FoxDotSession.remove_layer session (argS args "player" "")).2
  else if func_name = "play_synth" ∨ func_name = "play_drums" then
    (FoxDotSession.add_layer session now
      (argS args "player" "") (argS args "synth" "play") code
      (argS args "description" "Layer")
      (match getArg args "notes" with
       | some (JVal.s t) => evalNotes t
       | _ => none)
      (argSOpt args "pattern") (argSOpt args "dur")
      (argQOpt args "amp") (argIOpt args "oct")
      (argObj args "effects")).2
  else session

/-- What one run of `execute_function` produced: the result dictionary, the
session afterwards, and the code strings handed to the Execution Sandbox
(`[]` or a singleton). -/
structure FunctionResolution where
  result : FuncResult
  session : FoxDotSession
  executed : List String

/-- `execute_function` from `functions.py`: the call-resolution pipeline.
`sandbox` stands for `executor.execute`; the Python `if not code:` guard
covers both `None` and the empty string. -/
def execute_function (sandbox : String → ExecResult)
    (evalNotes : String → Option (List Int)) (now : Nat)
    (func_name : String) (args : Args) (session : FoxDotSession)
    (auto_execute : Bool) : FunctionResolution :=
  if func_name = "get_session_state" then
    { result := { status := "success" }, session := session, executed := [] }
  else
    match build_foxdot_code func_name args session with
    | none =>
        { result := { status := "error",
                      message := some "Could not build code for function" },
          session := session, executed := [] }
    | some code =>
        if code = "" then
          { result := { status := "error",
                        message := some "Could not build code for function" },
            session := session, executed := [] }
        else
          let session1 := applyMutation evalNotes now func_name args code session
          if auto_execute then
            let r := sandbox code
            let session2 := FoxDotSession.add_code_execution session1 code r.success r.output
            { result := { status := if r.success then "success" else "error",
                          code := some code, output := some r.output,
                          error := r.error,
                          players_affected := r.players_affected },
              session := session2, executed := [code] }
          else
            { result := { status := "code_generated", code := some code,
                          message := some "Code generated but not executed" },
              session := session1, executed := [] }

/-- One record of `function_calls_made` in `chat_stream`: a resolved call. -/
structure FunctionCallMade where
  name : String
  args : Args
  result : FuncResult

/-- `ConversationTurn` from `streaming_agent.py` (timestamp omitted). -/
structure ConversationTurn where
  role : String
  content : String
  thinking : Option String := none
  function_calls : List FunctionCallMade := []
  token_count : Nat := 0

/-- `ContextManager` from `streaming_agent.py`.  The Python float threshold
(default `0.7`) is modelled as an exact rational. -/
structure ContextManager where
  max_tokens : Nat := 100000
  consolidation_threshold : ℚ := mkRat 7 10
  keep_recent_turns : Nat := 5
  turns : List ConversationTurn := []
  consolidated_summary : Option String := none
  total_tokens : Nat := 0

/-- `ContextManager.estimate_tokens`: `len(text) // 4`. -/
def estimate_tokens (text : String) : Nat := text.length / 4

/-- `ContextManager.add_turn`. -/
def ContextManager.add_turn (cm : ContextManager) (turn : ConversationTurn) :
    ContextManager :=
  { cm with turns := cm.turns ++ [turn],
            total_tokens := cm.total_tokens + turn.token_count }

/-- `ContextManager.needs_consolidation`:
`total_tokens > max_tokens * consolidation_threshold`.  Implemented by
integer cross-multiplication so that it evaluates; the defining rational
inequality is recovered in `needs_consolidation_iff` below. -/
def ContextManager.needs_consolidation (cm : ContextManager) : Bool :=
  decide ((cm.total_tokens : Int) * (cm.consolidation_threshold.den : Int) >
    (cm.max_tokens : Int) * cm.consolidation_threshold.num)

/-- Python's tail slice `l[-k:]`.  For `k = 0` the slice is `l[0:]`, the whole
list. -/
def pySliceLast {α : Type} (k : Nat) (l : List α) : List α :=
  if k = 0 then l else l.drop (l.length - k)

/-- `ContextManager.consolidate`: store the summary, keep only
`turns[-keep_recent_turns:]`, recompute the running total as the sum of the
kept turns' counts plus the summary's own estimate. -/
def ContextManager.consolidate (cm : ContextManager) (summary : String) :
    ContextManager :=
  { cm with
    consolidated_summary := some summary,
    turns := pySliceLast cm.keep_recent_turns cm.turns,
    total_tokens :=
      ((pySliceLast cm.keep_recent_turns cm.turns).map
        (fun t => t.token_count)).sum + estimate_tokens summary }

/-- The consolidation-application fragment of `chat_stream`
(`if summary_response.text: …consolidate(…)`): apply the summary only when
the response text is truthy (present and non-empty). -/
def consolidationStep (cm : ContextManager) (summaryText : Option String) :
    ContextManager :=
  match summaryText with
  | some s => if s = "" then cm else ContextManager.consolidate cm s
  | none => cm

/-- The whole front-of-turn consolidation check of `chat_stream`: when
`needs_consolidation()`, request a summary (its text is the
`summaryText` parameter) and apply it through the truthiness guard. -/
def preTurnCM (cm : ContextManager) (summaryText : Option String) : ContextManager :=
  if cm.needs_consolidation then consolidationStep cm summaryText else cm

/-- `StreamEventType` from `streaming_agent.py`.  Events are tracked by type
only; payloads (chunk text, call data, the done dictionary) are not inspected
by any claim. -/
inductive StreamEventType where
  | thinking_start
  | thinking_chunk
  | thinking_end
  | text_start
  | text_chunk
  | text_end
  | function_call_start
  | function_call
  | function_result
  | function_call_end
  | error
  | done
deriving DecidableEq

/-- Count the occurrences of one event type in an emitted sequence. -/
def countEv (ev : StreamEventType) : List StreamEventType → Nat
  | [] => 0
  | e :: rest => (if e = ev then 1 else 0) + countEv ev rest

/-- One classified delta of a model stream, as `chat_stream` distinguishes
them: a thought part (`part.thought and part.text`), a fully-formed function
call, or a narration text part.  Parts that Python skips entirely (empty
text, thought flag with no text) produce no events and no state change and
are not represented. -/
inductive StreamPart where
  | thought (text : String)
  | call (name : String) (args : Args)
  | text (t : String)

/-- What one streamed generation yields: the parts successfully delivered in
order and, when `exc` is set, an exception raised by the stream after them. -/
structure StreamOutcome where
  parts : List StreamPart
  exc : Option String := none

/-- The mutable turn state of the `chat_stream` delta loop. -/
structure TurnAcc where
  events : List StreamEventType
  fcalls : List FunctionCallMade
  full_thinking : String
  full_response : String
  is_thinking : Bool
  is_responding : Bool
  session : FoxDotSession

/-- The loop state at the start of a turn. -/
def initAcc (session : FoxDotSession) : TurnAcc :=
  { events := [], fcalls := [], full_thinking := "", full_response := "",
    is_thinking := false, is_responding := false, session := session }

/-- One iteration of the `chat_stream` delta loop: classify the part, emit its
events, resolve a call synchronously through `execute_function`. -/
def processPart (sandbox : String → ExecResult)
    (evalNotes : String → Option (List Int)) (now : Nat) (auto_execute : Bool)
    (acc : TurnAcc) (p : StreamPart) : TurnAcc :=
  match p with
  | StreamPart.thought t =>
      { acc with
        is_thinking := true,
        full_thinking := acc.full_thinking ++ t,
        events := acc.events ++
          (if acc.is_thinking then [StreamEventType.thinking_chunk]
           else [StreamEventType.thinking_start, StreamEventType.thinking_chunk]) }
  | StreamPart.call name args =>
      let r := execute_function sandbox evalNotes now name args acc.session auto_execute
      { acc with
        is_thinking := false,
        session := r.session,
        fcalls := acc.fcalls ++ [{ name := name, args := args, result := r.result }],
        events := acc.events ++
          (if acc.is_thinking then [StreamEventType.thinking_end] else []) ++
          [StreamEventType.function_call_start, StreamEventType.function_call,
           StreamEventType.function_result, StreamEventType.function_call_end] }
  | StreamPart.text t =>
      { acc with
        is_thinking := false,
        is_responding := true,
        full_response := acc.full_response ++ t,
        events := acc.events ++
          (if acc.is_thinking then [StreamEventType.thinking_end] else []) ++
          (if acc.is_responding then [] else [StreamEventType.text_start]) ++
          [StreamEventType.text_chunk] }

/-- Run the main delta loop over the delivered parts. -/
def mainAcc (sandbox : String → ExecResult)
    (evalNotes : String → Option (List Int)) (now : Nat) (auto_execute : Bool)
    (session : FoxDotSession) (parts : List StreamPart) : TurnAcc :=
  parts.foldl (processPart sandbox evalNotes now auto_execute) (initAcc session)

/-- The events of `_continue_after_functions`: only narration text parts are
emitted (thought parts and calls are skipped by the
`part.text and not part.thought` guard); an exception after the delivered
parts yields a single error event and suppresses the closing text-end. -/
def contEvents (s : StreamOutcome) : List StreamEventType :=
  let textParts := s.parts.filter (fun p =>
    match p with | StreamPart.text _ => true | _ => false)
  let body :=
    if textParts.isEmpty then []
    else StreamEventType.text_start :: textParts.map (fun _ => StreamEventType.text_chunk)
  match s.exc with
  | some _ => body ++ [StreamEventType.error]
  | none => body ++ (if textParts.isEmpty then [] else [StreamEventType.text_end])

/-- The `"\n".join(...)` of the truthy generated-code entries, used for the
assistant chat message. -/
def joinCodes (fcalls : List FunctionCallMade) : String :=
  String.intercalate "\n" (fcalls.filterMap (fun fc =>
    match fc.result.code with
    | some c => if c = "" then none else some c
    | none => none))

/-- The engine state one `chat_stream` call reads and writes: the session and
the context manager. -/
structure AgentState where
  session : FoxDotSession
  cm : ContextManager

/-- What one `chat_stream` call produced: the emitted event sequence and the
state afterwards. -/
structure ChatOutcome where
  events : List StreamEventType
  state : AgentState

/-- `StreamingFoxDotAgent.chat_stream`, one full turn over given stream
outcomes: front-of-turn consolidation check, user message append, the main
delta loop, then — under the `try` — either the abort path (stream exception:
one error event, nothing recorded) or stream end, the continuation pass when
calls were made, turn recording and the final done event.  An exception
raised by the continuation stream is caught inside
`_continue_after_functions`, so the outer turn still records and emits done. -/
def chat_stream (sandbox : String → ExecResult)
    (evalNotes : String → Option (List Int)) (now : Nat) (auto_execute : Bool)
    (consolidationSummary : Option String)
    (mainStream contStream : StreamOutcome)
    (userMessage : String) (st : AgentState) : ChatOutcome :=
  let ev0 : List StreamEventType :=
    if st.cm.needs_consolidation
    then [StreamEventType.thinking_start, StreamEventType.thinking_end] else []
  let cm1 := preTurnCM st.cm consolidationSummary
  let session1 := FoxDotSession.add_chat_message st.session "user" userMessage none []
  let acc := mainAcc sandbox evalNotes now auto_execute session1 mainStream.parts
  match mainStream.exc with
  | some _ =>
      { events := ev0 ++ acc.events ++ [StreamEventType.error],
        state := { session := acc.session, cm := cm1 } }
  | none =>
      let endEvs :=
        (if acc.is_thinking then [StreamEventType.thinking_end] else []) ++
        (if acc.is_responding then [StreamEventType.text_end] else [])
      let contEvs := if acc.fcalls.isEmpty then [] else contEvents contStream
      let turn : ConversationTurn :=
        { role := "assistant", content := acc.full_response,
          thinking := if acc.full_thinking = "" then none else some acc.full_thinking,
          function_calls := acc.fcalls,
          token_count := estimate_tokens (acc.full_response ++ acc.full_thinking) }
      let cm2 := ContextManager.add_turn cm1 turn
      let session2 := FoxDotSession.add_chat_message acc.session "assistant"
        acc.full_response (some (joinCodes acc.fcalls)) []
      { events := ev0 ++ acc.events ++ endEvs ++ contEvs ++ [StreamEventType.done],
        state := { session := session2, cm := cm2 } }

/-! ### Upsert sequences (for the created-at preservation property) -/

/-- The arguments of one `add_layer` upsert (everything but the layer name),
including the timestamp at which it runs. -/
structure UpsertArgs where
  now : Nat
  synth : String
  code : String
  description : String
  notes : Option (List Int) := none
  pattern : Option String := none
  dur : Option String := none
  amp : Option ℚ := none
  oct : Option Int := none
  effects : Args := []

/-- Apply one upsert to a session (the session component of `add_layer`). -/
def applyUpsert (name : String) (s : FoxDotSession) (u : UpsertArgs) : FoxDotSession :=
  (FoxDotSession.add_layer s u.now name u.synth u.code u.description u.notes
    u.pattern u.dur u.amp u.oct u.effects).2

/-! ### Shared concrete oracles and instances -/

/-- A sandbox oracle that accepts any code string (a healthy FoxDot runtime:
`exec` of generated code, in particular of a pure comment line, succeeds). -/
def sandboxOk : String → ExecResult := fun _ => { success := true }

/-- A notes oracle that evaluates nothing (its value is irrelevant to every
statement below). -/
def noEval : String → Option (List Int) := fun _ => none

/-- A session holding one melodic layer `p1` created at time 3 with
amplitude 0.5. -/
def sessionP1 : FoxDotSession :=
  (FoxDotSession.add_layer emptySession 3 "p1" "pluck"
    "p1 >> pluck([0, 2, 4, 7], dur=1, amp=0.5, oct=5)" "arp"
    (some [0, 2, 4, 7]) none (some "1") (some (mkRat 1 2)) (some 5) []).2

/-- The layer stored in `sessionP1`. -/
def layerP1 : Layer :=
  { player_name := "p1", synth := "pluck",
    code := "p1 >> pluck([0, 2, 4, 7], dur=1, amp=0.5, oct=5)",
    description := "arp", state := PlayerState.playing,
    created_at := 3, modified_at := 3,
    notes := some [0, 2, 4, 7], pattern := none, dur := some "1",
    amp := some (mkRat 1 2), oct := some 5, effects := [] }

/-- A fresh agent state (empty session, default context manager). -/
def agentState0 : AgentState := { session := emptySession, cm := {} }

/-- A context manager whose turn is far above the default threshold even
after consolidation (`max_tokens = 100`, one kept turn of 1000 tokens). -/
def cmBig : ContextManager :=
  { max_tokens := 100,
    turns := [{ role := "assistant", content := "long content", token_count := 1000 }],
    total_tokens := 1000 }

/-- A context manager configured with `keep_recent_turns = 0` holding one
turn. -/
def cmK0 : ContextManager :=
  { keep_recent_turns := 0,
    turns := [{ role := "assistant", content := "a", token_count := 10 }],
    total_tokens := 10 }

/-- A context manager with `keep_recent_turns = 2` holding three turns. -/
def cmK2 : ContextManager :=
  { keep_recent_turns := 2,
    turns := [{ role := "user", content := "one", token_count := 10 },
              { role := "assistant", content := "two", token_count := 20 },
              { role := "assistant", content := "three", token_count := 30 }],
    total_tokens := 60 }

/-- A first upsert of `p1` at time 5. -/
def upsertA : UpsertArgs :=
  { now := 5, synth := "pluck", code := "p1 >> pluck([0], dur=1, amp=0.7, oct=5)",
    description := "first" }

/-- A second upsert of `p1` at time 9. -/
def upsertB : UpsertArgs :=
  { now := 9, synth := "keys", code := "p1 >> keys([2], dur=1, amp=0.7, oct=5)",
    description := "second" }

/-! ### Helper lemmas -/

theorem dictGet_dictSet_self {α : Type} (d : List (String × α)) (k : String) (v : α) :
    dictGet (dictSet d k v) k = some v := by
  induction d with
  | nil => simp [dictGet, dictSet]
  | cons p rest ih =>
      by_cases h : p.1 = k
      · simp [dictGet, dictSet, h]
      · simp [dictGet, dictSet, h, ih]

theorem music_state_add_code_execution (s : FoxDotSession) (c : String) (b : Bool)
    (o : String) : (FoxDotSession.add_code_execution s c b o).music_state = s.music_state :=
  rfl

theorem countEv_append (ev : StreamEventType) (a b : List StreamEventType) :
    countEv ev (a ++ b) = countEv ev a + countEv ev b := by
  induction a with
  | nil => simp [countEv]
  | cons e rest ih => simp [countEv, ih]; omega

theorem countEv_processPart (ev : StreamEventType)
    (hev : ev = StreamEventType.error ∨ ev = StreamEventType.done)
    (sandbox : String → ExecResult) (evalNotes : String → Option (List Int))
    (now : Nat) (auto_execute : Bool) (acc : TurnAcc) (p : StreamPart) :
    countEv ev (processPart sandbox evalNotes now auto_execute acc p).events =
      countEv ev acc.events := by
  rcases hev with h | h <;> subst h <;> cases p <;>
    cases hthink : acc.is_thinking <;> cases hresp : acc.is_responding <;>
    simp [processPart, countEv_append, countEv, hthink, hresp]

theorem countEv_foldl_processPart (ev : StreamEventType)
    (hev : ev = StreamEventType.error ∨ ev = StreamEventType.done)
    (sandbox : String → ExecResult) (evalNotes : String → Option (List Int))
    (now : Nat) (auto_execute : Bool) (parts : List StreamPart) (acc : TurnAcc) :
    countEv ev ((parts.foldl (processPart sandbox evalNotes now auto_execute) acc).events) =
      countEv ev acc.events := by
  induction parts generalizing acc with
  | nil => rfl
  | cons p rest ih =>
      rw [List.foldl_cons, ih, countEv_processPart ev hev]

theorem countEv_mainAcc (ev : StreamEventType)
    (hev : ev = StreamEventType.error ∨ ev = StreamEventType.done)
    (sandbox : String → ExecResult) (evalNotes : String → Option (List Int))
    (now : Nat) (auto_execute : Bool) (session : FoxDotSession)
    (parts : List StreamPart) :
    countEv ev ((mainAcc sandbox evalNotes now auto_execute session parts).events) = 0 := by
  rw [mainAcc, countEv_foldl_processPart ev hev]
  rfl

theorem countEv_contEvents_done (s : StreamOutcome) :
    countEv StreamEventType.done (contEvents s) = 0 := by
  rw [contEvents]
  cases s.exc <;> cases h : (s.parts.filter (fun p =>
      match p with | StreamPart.text _ => true | _ => false)).isEmpty <;>
    simp [h, countEv_append, countEv] <;>
    · induction (s.parts.filter (fun p =>
        match p with | StreamPart.text _ => true | _ => false)) with
      | nil => simp [countEv]
      | cons q rest ih => simpa [countEv] using ih

theorem countEv_contEvents_error (s : StreamOutcome) (h : s.exc = none) :
    countEv StreamEventType.error (contEvents s) = 0 := by
  rw [contEvents, h]
  cases hq : (s.parts.filter (fun p =>
      match p with | StreamPart.text _ => true | _ => false)).isEmpty <;>
    simp [hq, countEv_append, countEv] <;>
    · induction (s.parts.filter (fun p =>
        match p with | StreamPart.text _ => true | _ => false)) with
      | nil => simp [countEv]
      | cons q rest ih => simpa [countEv] using ih

theorem needs_consolidation_iff (cm : ContextManager) :
    cm.needs_consolidation = true ↔
      (cm.total_tokens : ℚ) > (cm.max_tokens : ℚ) * cm.consolidation_threshold := by
  have hden : (0 : ℚ) < (cm.consolidation_threshold.den : ℚ) := by
    exact_mod_cast cm.consolidation_threshold.pos
  rw [ContextManager.needs_consolidation, decide_eq_true_eq, gt_iff_lt, gt_iff_lt]
  rw [show (cm.max_tokens : ℚ) * cm.consolidation_threshold =
        (cm.max_tokens : ℚ) * cm.consolidation_threshold.num /
          cm.consolidation_threshold.den by
      rw [mul_div_assoc, Rat.num_div_den]]
  rw [div_lt_iff₀ hden]
  constructor
  · intro h; exact_mod_cast h
  · intro h; exact_mod_cast h

theorem build_foxdot_code_unknown (func_name : String) (args : Args)
    (session : FoxDotSession) (h : func_name ∉ catalogNames) :
    build_foxdot_code func_name args session =
      some ("# Unknown function: " ++ func_name) := by
  simp only [catalogNames, List.mem_cons, List.not_mem_nil, or_false, not_or] at h
  obtain ⟨h1, h2, h3, h4, h5, h6, h7, h8, h9, h10⟩ := h
  simp [build_foxdot_code, h1, h2, h3, h4, h5, h6, h7, h8, h9, h10]

theorem applyMutation_unknown (evalNotes : String → Option (List Int)) (now : Nat)
    (func_name : String) (args : Args) (code : String) (session : FoxDotSession)
    (h : func_name ∉ catalogNames) :
    applyMutation evalNotes now func_name args code session = session := by
  simp only [catalogNames, List.mem_cons, List.not_mem_nil, or_false, not_or] at h
  obtain ⟨h1, h2, h3, h4, h5, h6, h7, h8, h9, h10⟩ := h
  simp [applyMutation, h1, h2, h3, h4, h5, h6, h7, h8]

theorem unknown_code_ne_empty (func_name : String) :
    "# Unknown function: " ++ func_name ≠ "" := by
  intro hc
  have h' := congrArg String.data hc
  simp [String.data_append] at h'

theorem modifyLayerCode_ne_empty (player : String) (args : Args) (layer : Layer) :
    modifyLayerCode player args layer ≠ "" := by
  intro hc
  have h' := congrArg String.data hc
  simp [modifyLayerCode, String.data_append] at h'

theorem countEv_mainAcc_error (sandbox : String → ExecResult)
    (evalNotes : String → Option (List Int)) (now : Nat) (auto_execute : Bool)
    (session : FoxDotSession) (parts : List StreamPart) :
    countEv StreamEventType.error
      ((mainAcc sandbox evalNotes now auto_execute session parts).events) = 0 :=
  countEv_mainAcc StreamEventType.error (Or.inl rfl) sandbox evalNotes now
    auto_execute session parts

theorem countEv_mainAcc_done (sandbox : String → ExecResult)
    (evalNotes : String → Option (List Int)) (now : Nat) (auto_execute : Bool)
    (session : FoxDotSession) (parts : List StreamPart) :
    countEv StreamEventType.done
      ((mainAcc sandbox evalNotes now auto_execute session parts).events) = 0 :=
  countEv_mainAcc StreamEventType.done (Or.inr rfl) sandbox evalNotes now
    auto_execute session parts

theorem get_layer_applyUpsert (name : String) (s : FoxDotSession) (u : UpsertArgs) :
    ∃ l, FoxDotSession.get_layer (applyUpsert name s u) name = some l ∧
      l.created_at = (match FoxDotSession.get_layer s name with
        | some old => old.created_at
        | none => u.now) := by
  cases h : FoxDotSession.get_layer s name with
  | none =>
      have hd : dictGet s.music_state.active_layers name = none := h
      refine ⟨({ player_name := name, synth := u.synth, code := u.code,
                 description := u.description, state := PlayerState.playing,
                 created_at := u.now, modified_at := u.now, notes := u.notes,
                 pattern := u.pattern, dur := u.dur, amp := u.amp, oct := u.oct,
                 effects := u.effects } : Layer), ?_, by simp [h]⟩
      simp [applyUpsert, FoxDotSession.add_layer, h, hd, FoxDotSession.get_layer,
        dictGet_dictSet_self]
  | some old =>
      have hd : dictGet s.music_state.active_layers name = some old := h
      refine ⟨({ player_name := name, synth := u.synth, code := u.code,
                 description := u.description, state := PlayerState.playing,
                 created_at := old.created_at, modified_at := u.now, notes := u.notes,
                 pattern := u.pattern, dur := u.dur, amp := u.amp, oct := u.oct,
                 effects := u.effects } : Layer), ?_, by simp [h]⟩
      simp [applyUpsert, FoxDotSession.add_layer, h, hd, FoxDotSession.get_layer,
        dictGet_dictSet_self]

/-! ### Claim C1 -/

/-- C1, counterexample: the claim says an unknown call name yields a result
with `status = "error"`.  At the concrete unknown name `"make_coffee"` (with
automatic execution disabled) the pipeline instead returns
`status = "code_generated"`, because `build_foxdot_code` falls through to the
truthy comment string `"# Unknown function: make_coffee"` and the
`if not code` error branch is never taken. -/
theorem C1_counterexample :
    "make_coffee" ∉ catalogNames ∧
    (execute_function sandboxOk noEval 0 "make_coffee" [] emptySession
      false).result.status = "code_generated" ∧
    (execute_function sandboxOk noEval 0 "make_coffee" [] emptySession
      false).result.status ≠ "error" ∧
    (execute_function sandboxOk noEval 0 "make_coffee" [] emptySession
      false).session.music_state = emptySession.music_state :=
  ⟨by decide, rfl, by decide, rfl⟩

/-- C1 (amended): for every call name outside the catalog, the resolution
pipeline leaves the Session's music state (tempo, scale, root, layer map)
unchanged and does not abort the turn, but the result is not a synthetic
error: its code is the comment `"# Unknown function: <name>"` and its status
is `"code_generated"` when automatic execution is disabled, else the
sandbox's own success/error status for that comment.  A turn whose main
stream consists of such a call (and whose continuation stream does not
raise) still emits no error event and exactly one done event. -/
theorem C1_theorem (sandbox : String → ExecResult)
    (evalNotes : String → Option (List Int)) (now : Nat) (func_name : String)
    (args : Args) (session : FoxDotSession) (auto_execute : Bool)
    (h : func_name ∉ catalogNames) :
    (execute_function sandbox evalNotes now func_name args session
      auto_execute).session.music_state = session.music_state ∧
    (execute_function sandbox evalNotes now func_name args session
      auto_execute).result.code = some ("# Unknown function: " ++ func_name) ∧
    (execute_function sandbox evalNotes now func_name args session
      auto_execute).result.status =
      (if auto_execute then
        (if (sandbox ("# Unknown function: " ++ func_name)).success then "success"
         else "error")
       else "code_generated") ∧
    (∀ (st : AgentState), st.cm.needs_consolidation = false →
      ∀ (contStream : StreamOutcome), contStream.exc = none →
      ∀ (consolidationSummary : Option String) (userMessage : String),
        countEv StreamEventType.error
          (chat_stream sandbox evalNotes now auto_execute consolidationSummary
            { parts := [StreamPart.call func_name args], exc := none } contStream
            userMessage st).events = 0 ∧
        countEv StreamEventType.done
          (chat_stream sandbox evalNotes now auto_execute consolidationSummary
            { parts := [StreamPart.call func_name args], exc := none } contStream
            userMessage st).events = 1) := by
  have hgss : func_name ≠ "get_session_state" := by
    intro he
    rw [he] at h
    exact h (by decide)
  have hb := build_foxdot_code_unknown func_name args session h
  have hne := unknown_code_ne_empty func_name
  have hm := applyMutation_unknown evalNotes now func_name args
    ("# Unknown function: " ++ func_name) session h
  refine ⟨?_, ?_, ?_, ?_⟩
  · cases auto_execute <;>
      simp [execute_function, hgss, hb, hne, hm, music_state_add_code_execution]
  · cases auto_execute <;> simp [execute_function, hgss, hb, hne]
  · cases auto_execute <;> simp [execute_function, hgss, hb, hne]
  · intro st hst contStream hcs consolidationSummary userMessage
    constructor <;>
      simp [chat_stream, hst, mainAcc, initAcc, processPart, countEv_append,
        countEv, countEv_contEvents_done contStream,
        countEv_contEvents_error contStream hcs]

/-- C1 witness: the amended theorem applied at the unknown name
`"make_coffee"` on a fresh session and a fresh agent state. -/
theorem C1_witness :
    (execute_function sandboxOk noEval 0 "make_coffee" [] emptySession
      false).session.music_state = emptySession.music_state ∧
    countEv StreamEventType.done
      (chat_stream sandboxOk noEval 0 false none
        { parts := [StreamPart.call "make_coffee" []], exc := none }
        { parts := [], exc := none } "play something" agentState0).events = 1 :=
  ⟨(C1_theorem sandboxOk noEval 0 "make_coffee" [] emptySession false
      (by decide)).1,
   ((C1_theorem sandboxOk noEval 0 "make_coffee" [] emptySession false
      (by decide)).2.2.2 agentState0 (by decide) { parts := [], exc := none } rfl
      none "play something").2⟩

/-! ### Claim C3 -/

/-- C3: the claim (and the spec scenario) says a `modify_layer` call naming a
player with no existing layer produces `status = "error"`, executes no code
in the sandbox, and leaves the Session unchanged.  Evaluating the code at
the failing input (`modify_layer(player="p1", amp=0.9)` on an empty session,
automatic execution enabled, healthy sandbox): the session is indeed
unchanged, but the builder returns the truthy comment
`"# Error: Player p1 not found"`, which is handed to the sandbox and
executed, and the result reports `status = "success"`. -/
theorem C3_theorem :
    (execute_function sandboxOk noEval 0 "modify_layer"
      [("player", JVal.s "p1"), ("amp", JVal.q (mkRat 9 10))] emptySession
      true).result.status = "success" ∧
    (execute_function sandboxOk noEval 0 "modify_layer"
      [("player", JVal.s "p1"), ("amp", JVal.q (mkRat 9 10))] emptySession
      true).executed = ["# Error: Player p1 not found"] ∧
    (execute_function sandboxOk noEval 0 "modify_layer"
      [("player", JVal.s "p1"), ("amp", JVal.q (mkRat 9 10))] emptySession
      true).session.music_state = emptySession.music_state :=
  ⟨rfl, rfl, rfl⟩

/-! ### Claim C4 -/

/-- C4, counterexample: the claim says a `modify_layer` call on an existing
player merges the supplied `amp` into the Layer stored in the Session.  At
the concrete input (`p1` stored with amplitude `1/2`, call supplies
amplitude `9/10`) the stored layer still has amplitude `1/2` after the call
resolves: the dispatcher has no session-mutation branch for `modify_layer`
(the merge happens only inside the generated code string), and
`update_layer` is never invoked. -/
theorem C4_counterexample :
    (FoxDotSession.get_layer sessionP1 "p1").isSome = true ∧
    ((execute_function sandboxOk noEval 7 "modify_layer"
        [("player", JVal.s "p1"), ("amp", JVal.q (mkRat 9 10))] sessionP1
        false).session.get_layer "p1").map (fun l => l.amp)
      = some (some (mkRat 1 2)) ∧
    some (mkRat 1 2) ≠ some (mkRat 9 10) ∧
    ((execute_function sandboxOk noEval 7 "modify_layer"
        [("player", JVal.s "p1"), ("amp", JVal.q (mkRat 9 10))] sessionP1
        false).session.get_layer "p1").map (fun l => l.modified_at) = some 3 :=
  ⟨by decide, by decide, by decide, by decide⟩

/-- C4 (amended): a `modify_layer` call naming a player whose Layer exists
leaves the Session's music state — in particular the stored Layer —
exactly unchanged; the merged `amp`/`oct`/`effects` values appear only in
the generated code string. -/
theorem C4_theorem (sandbox : String → ExecResult)
    (evalNotes : String → Option (List Int)) (now : Nat) (args : Args)
    (session : FoxDotSession) (auto_execute : Bool)
    (h : (FoxDotSession.get_layer session (argS args "player" "")).isSome = true) :
    (execute_function sandbox evalNotes now "modify_layer" args session
      auto_execute).session.music_state = session.music_state := by
  obtain ⟨l, hl⟩ := Option.isSome_iff_exists.mp h
  have hb : build_foxdot_code "modify_layer" args session
      = some (modifyLayerCode (argS args "player" "") args l) := by
    simp [build_foxdot_code, hl]
  have hne := modifyLayerCode_ne_empty (argS args "player" "") args l
  have hm : applyMutation evalNotes now "modify_layer" args
      (modifyLayerCode (argS args "player" "") args l) session = session := by
    simp [applyMutation]
  cases auto_execute <;>
    simp [execute_function, hb, hne, hm, music_state_add_code_execution]

/-- C4 witness: the amended theorem applied at the concrete session holding
`p1`. -/
theorem C4_witness :
    (execute_function sandboxOk noEval 7 "modify_layer"
      [("player", JVal.s "p1"), ("amp", JVal.q (mkRat 9 10))] sessionP1
      false).session.music_state = sessionP1.music_state :=
  C4_theorem sandboxOk noEval 7 [("player", JVal.s "p1"), ("amp", JVal.q (mkRat 9 10))]
    sessionP1 false (by decide)

/-! ### Claim C5 -/

/-- C5, counterexample: the claim quantifies over every catalog call, but two
catalog calls resolved with automatic execution disabled do not produce
`status = "code_generated"`: `get_session_state` short-circuits with
`status = "success"`, and `execute_code` with an empty code argument takes
the `if not code` branch and returns `status = "error"`. -/
theorem C5_counterexample :
    ("get_session_state" ∈ catalogNames ∧
      (execute_function sandboxOk noEval 0 "get_session_state" [] emptySession
        false).result.status = "success" ∧
      (execute_function sandboxOk noEval 0 "get_session_state" [] emptySession
        false).result.status ≠ "code_generated") ∧
    ("execute_code" ∈ catalogNames ∧
      (execute_function sandboxOk noEval 0 "execute_code"
        [("code", JVal.s ""), ("description", JVal.s "noop")] emptySession
        false).result.status = "error") :=
  ⟨⟨by decide, rfl, by decide⟩, ⟨by decide, rfl⟩⟩

/-- C5 (amended): for every call other than `get_session_state` whose built
code is non-empty, resolving with automatic execution disabled applies the
session-mutation rule exactly as it would with execution enabled (the music
state is identical in both modes — the mutation happens before and
independently of the sandbox branch), returns `status = "code_generated"`,
and never invokes the Execution Sandbox. -/
theorem C5_theorem (sandbox : String → ExecResult)
    (evalNotes : String → Option (List Int)) (now : Nat) (func_name : String)
    (args : Args) (session : FoxDotSession)
    (h1 : func_name ≠ "get_session_state")
    (h2 : (build_foxdot_code func_name args session).getD "" ≠ "") :
    (execute_function sandbox evalNotes now func_name args session
      false).result.status = "code_generated" ∧
    (execute_function sandbox evalNotes now func_name args session
      false).executed = [] ∧
    (execute_function sandbox evalNotes now func_name args session
      false).session = applyMutation evalNotes now func_name args
        ((build_foxdot_code func_name args session).getD "") session ∧
    (execute_function sandbox evalNotes now func_name args session
      true).session.music_state =
      (execute_function sandbox evalNotes now func_name args session
        false).session.music_state := by
  cases hb : build_foxdot_code func_name args session with
  | none => rw [hb] at h2; simp at h2
  | some c =>
      rw [hb] at h2
      simp only [Option.getD_some] at h2
      refine ⟨?_, ?_, ?_, ?_⟩ <;>
        simp [execute_function, h1, hb, h2, music_state_add_code_execution]

/-- C5 witness: the amended theorem applied at the catalog call
`set_tempo(bpm=140)` on a fresh session. -/
theorem C5_witness :
    (execute_function sandboxOk noEval 0 "set_tempo" [("bpm", JVal.i 140)]
      emptySession false).result.status = "code_generated" ∧
    (execute_function sandboxOk noEval 0 "set_tempo" [("bpm", JVal.i 140)]
      emptySession false).executed = [] ∧
    (execute_function sandboxOk noEval 0 "set_tempo" [("bpm", JVal.i 140)]
      emptySession false).session = applyMutation noEval 0 "set_tempo"
        [("bpm", JVal.i 140)]
        ((build_foxdot_code "set_tempo" [("bpm", JVal.i 140)] emptySession).getD "")
        emptySession ∧
    (execute_function sandboxOk noEval 0 "set_tempo" [("bpm", JVal.i 140)]
      emptySession true).session.music_state =
      (execute_function sandboxOk noEval 0 "set_tempo" [("bpm", JVal.i 140)]
        emptySession false).session.music_state :=
  C5_theorem sandboxOk noEval 0 "set_tempo" [("bpm", JVal.i 140)] emptySession
    (by decide) (by decide)

/-! ### Claim C2 -/

/-- C2, counterexample: the claim says no turn's event sequence ever contains
both an error event and a done event, explicitly including an exception
raised during the continuation pass — and that a turn emitting an error is
not recorded.  At the concrete input (a main stream delivering one
`set_tempo` call, then a continuation stream that raises), the turn emits
one error event AND one done event, and the turn IS recorded into the
Context Manager: `_continue_after_functions` catches its own exception and
yields the error event, after which `chat_stream` proceeds to record the
turn and emit done. -/
theorem C2_counterexample :
    countEv StreamEventType.error
      (chat_stream sandboxOk noEval 0 false none
        { parts := [StreamPart.call "set_tempo" [("bpm", JVal.i 140)]], exc := none }
        { parts := [], exc := some "boom" } "hello" agentState0).events = 1 ∧
    countEv StreamEventType.done
      (chat_stream sandboxOk noEval 0 false none
        { parts := [StreamPart.call "set_tempo" [("bpm", JVal.i 140)]], exc := none }
        { parts := [], exc := some "boom" } "hello" agentState0).events = 1 ∧
    (chat_stream sandboxOk noEval 0 false none
        { parts := [StreamPart.call "set_tempo" [("bpm", JVal.i 140)]], exc := none }
        { parts := [], exc := some "boom" } "hello" agentState0).state.cm.turns.length
      = agentState0.cm.turns.length + 1 :=
  ⟨by decide, by decide, by decide⟩

/-- C2 (amended): a turn aborted by an exception during main stream
consumption emits exactly one error event and no done event, and appends no
turn to the Context Manager (its turn list equals the list left by the
front-of-turn consolidation check); a turn whose main stream and
continuation stream both complete without exception emits exactly one done
event and no error event and appends exactly one turn.  However, an
exception during the continuation pass after function calls emits an error
event and still ends in a done event with the turn recorded (shown by the
counterexample). -/
theorem C2_theorem (sandbox : String → ExecResult)
    (evalNotes : String → Option (List Int)) (now : Nat) (auto_execute : Bool)
    (consolidationSummary : Option String) (mainStream contStream : StreamOutcome)
    (userMessage : String) (st : AgentState) :
    (mainStream.exc ≠ none →
      countEv StreamEventType.error
        (chat_stream sandbox evalNotes now auto_execute consolidationSummary
          mainStream contStream userMessage st).events = 1 ∧
      countEv StreamEventType.done
        (chat_stream sandbox evalNotes now auto_execute consolidationSummary
          mainStream contStream userMessage st).events = 0 ∧
      (chat_stream sandbox evalNotes now auto_execute consolidationSummary
          mainStream contStream userMessage st).state.cm.turns
        = (preTurnCM st.cm consolidationSummary).turns) ∧
    (mainStream.exc = none → contStream.exc = none →
      countEv StreamEventType.done
        (chat_stream sandbox evalNotes now auto_execute consolidationSummary
          mainStream contStream userMessage st).events = 1 ∧
      countEv StreamEventType.error
        (chat_stream sandbox evalNotes now auto_execute consolidationSummary
          mainStream contStream userMessage st).events = 0 ∧
      ∃ t, (chat_stream sandbox evalNotes now auto_execute consolidationSummary
          mainStream contStream userMessage st).state.cm.turns
        = (preTurnCM st.cm consolidationSummary).turns ++ [t]) := by
  constructor
  · intro hexc
    obtain ⟨m, hm⟩ := Option.ne_none_iff_exists'.mp hexc
    refine ⟨?_, ?_, ?_⟩ <;>
      · cases hn : st.cm.needs_consolidation <;>
          simp [chat_stream, hm, hn, countEv_append, countEv,
            countEv_mainAcc_error, countEv_mainAcc_done]
  · intro hm hcs
    refine ⟨?_, ?_, ?_⟩
    · cases hn : st.cm.needs_consolidation <;>
        cases hfc : (mainAcc sandbox evalNotes now auto_execute
            (FoxDotSession.add_chat_message st.session "user" userMessage none [])
            mainStream.parts).fcalls.isEmpty <;>
        cases ht : (mainAcc sandbox evalNotes now auto_execute
            (FoxDotSession.add_chat_message st.session "user" userMessage none [])
            mainStream.parts).is_thinking <;>
        cases hr : (mainAcc sandbox evalNotes now auto_execute
            (FoxDotSession.add_chat_message st.session "user" userMessage none [])
            mainStream.parts).is_responding <;>
        simp [chat_stream, hm, hn, hfc, ht, hr, countEv_append, countEv,
          countEv_mainAcc_error, countEv_mainAcc_done,
          countEv_contEvents_done contStream]
    · cases hn : st.cm.needs_consolidation <;>
        cases hfc : (mainAcc sandbox evalNotes now auto_execute
            (FoxDotSession.add_chat_message st.session "user" userMessage none [])
            mainStream.parts).fcalls.isEmpty <;>
        cases ht : (mainAcc sandbox evalNotes now auto_execute
            (FoxDotSession.add_chat_message st.session "user" userMessage none [])
            mainStream.parts).is_thinking <;>
        cases hr : (mainAcc sandbox evalNotes now auto_execute
            (FoxDotSession.add_chat_message st.session "user" userMessage none [])
            mainStream.parts).is_responding <;>
        simp [chat_stream, hm, hn, hfc, ht, hr, countEv_append, countEv,
          countEv_mainAcc_error, countEv_mainAcc_done,
          countEv_contEvents_error contStream hcs]
    · set acc := mainAcc sandbox evalNotes now auto_execute
        (FoxDotSession.add_chat_message st.session "user" userMessage none [])
        mainStream.parts with hacc
      refine ⟨({ role := "assistant", content := acc.full_response,
                 thinking := if acc.full_thinking = "" then none
                   else some acc.full_thinking,
                 function_calls := acc.fcalls,
                 token_count := estimate_tokens
                   (acc.full_response ++ acc.full_thinking) } : ConversationTurn), ?_⟩
      simp [chat_stream, hm, ContextManager.add_turn, ← hacc]

/-- C2 witness: the amended theorem applied at a concrete aborting stream
(first part) and at a concrete completing stream (second part). -/
theorem C2_witness :
    countEv StreamEventType.error
      (chat_stream sandboxOk noEval 0 false none
        { parts := [], exc := some "network failure" }
        { parts := [], exc := none } "hi" agentState0).events = 1 ∧
    countEv StreamEventType.done
      (chat_stream sandboxOk noEval 0 false none
        { parts := [StreamPart.text "ok"], exc := none }
        { parts := [], exc := none } "hi" agentState0).events = 1 :=
  ⟨((C2_theorem sandboxOk noEval 0 false none
      { parts := [], exc := some "network failure" }
      { parts := [], exc := none } "hi" agentState0).1 (by decide)).1,
   ((C2_theorem sandboxOk noEval 0 false none
      { parts := [StreamPart.text "ok"], exc := none }
      { parts := [], exc := none } "hi" agentState0).2 rfl rfl).1⟩

/-! ### Claim C6 -/

/-- C6, counterexample: the claim quantifies over every Context Manager state
with more than `K` turns.  For a manager configured with
`keep_recent_turns = 0` holding one turn, consolidation keeps the whole turn
list instead of exactly the last `0` turns: the Python slice `turns[-0:]` is
`turns[0:]`, the entire list. -/
theorem C6_counterexample :
    cmK0.keep_recent_turns < cmK0.turns.length ∧
    (cmK0.consolidate "s").turns.length ≠ cmK0.keep_recent_turns :=
  ⟨by decide, by decide⟩

/-- C6 (amended): for every Context Manager state with more than `K ≥ 1`
turns and every summary text, consolidation keeps exactly the last `K` turns
in order (the suffix of length `K`), replaces any prior rolling summary with
the new summary text, and sets the running total to the sum of the kept
turns' estimates plus the summary's own size estimate.  (For the degenerate
configuration `K = 0`, the Python slice `turns[-0:]` keeps every turn.) -/
theorem C6_theorem (cm : ContextManager) (s : String)
    (hK : 0 < cm.keep_recent_turns)
    (hlen : cm.keep_recent_turns < cm.turns.length) :
    (cm.consolidate s).turns
      = cm.turns.drop (cm.turns.length - cm.keep_recent_turns) ∧
    (cm.consolidate s).turns.length = cm.keep_recent_turns ∧
    (cm.consolidate s).consolidated_summary = some s ∧
    (cm.consolidate s).total_tokens
      = ((cm.consolidate s).turns.map (fun t => t.token_count)).sum
        + estimate_tokens s := by
  have hK0 : cm.keep_recent_turns ≠ 0 := Nat.pos_iff_ne_zero.mp hK
  refine ⟨?_, ?_, rfl, rfl⟩
  · simp [ContextManager.consolidate, pySliceLast, hK0]
  · simp only [ContextManager.consolidate, pySliceLast, hK0, if_false,
      List.length_drop]
    omega

/-- C6 witness: the amended theorem applied at the concrete manager with
`K = 2` and three turns. -/
theorem C6_witness :
    (0 < cmK2.keep_recent_turns ∧ cmK2.keep_recent_turns < cmK2.turns.length) ∧
    ((cmK2.consolidate "overall summary").turns
        = cmK2.turns.drop (cmK2.turns.length - cmK2.keep_recent_turns) ∧
      (cmK2.consolidate "overall summary").turns.length = cmK2.keep_recent_turns ∧
      (cmK2.consolidate "overall summary").consolidated_summary
        = some "overall summary" ∧
      (cmK2.consolidate "overall summary").total_tokens
        = ((cmK2.consolidate "overall summary").turns.map
            (fun t => t.token_count)).sum + estimate_tokens "overall summary") :=
  ⟨⟨by decide, by decide⟩, C6_theorem cmK2 "overall summary" (by decide) (by decide)⟩

/-! ### Claim C7 -/

/-- C7: a consolidation attempt whose resulting summary text is empty (or
absent) is a no-op on the Context Manager: the `if summary_response.text:`
guard in `chat_stream` skips `consolidate`, so turns, summary and running
total are all unchanged. -/
theorem C7_theorem (cm : ContextManager) (summaryText : Option String)
    (h : summaryText = none ∨ summaryText = some "") :
    consolidationStep cm summaryText = cm := by
  rcases h with h | h <;> subst h <;> simp [consolidationStep]

/-- C7 witness: the theorem applied to an empty summary and to an absent
summary on the concrete manager `cmK2`. -/
theorem C7_witness :
    consolidationStep cmK2 (some "") = cmK2 ∧ consolidationStep cmK2 none = cmK2 :=
  ⟨C7_theorem cmK2 (some "") (Or.inr rfl), C7_theorem cmK2 none (Or.inl rfl)⟩

/-! ### Claim C8 -/

/-- C8: for every sequence of upserts of the same layer name starting from a
session that does not yet hold that name, the stored Layer's `created_at`
after the whole sequence equals the timestamp of the first upsert, never a
later one: `add_layer` carries the existing layer's `created_at` over on
replacement. -/
theorem C8_theorem (s : FoxDotSession) (name : String) (u : UpsertArgs)
    (us : List UpsertArgs) (h : FoxDotSession.get_layer s name = none) :
    (FoxDotSession.get_layer ((u :: us).foldl (applyUpsert name) s) name).map
      (fun l => l.created_at) = some u.now := by
  have step : ∀ (restUs : List UpsertArgs) (s' : FoxDotSession) (c : Nat),
      (FoxDotSession.get_layer s' name).map (fun l => l.created_at) = some c →
      (FoxDotSession.get_layer (restUs.foldl (applyUpsert name) s') name).map
        (fun l => l.created_at) = some c := by
    intro restUs
    induction restUs with
    | nil => intro s' c hc; exact hc
    | cons v rest ih =>
        intro s' c hc
        obtain ⟨l0, hl0⟩ : ∃ l0, FoxDotSession.get_layer s' name = some l0 := by
          cases hg : FoxDotSession.get_layer s' name with
          | none => rw [hg] at hc; simp at hc
          | some l0 => exact ⟨l0, rfl⟩
        rw [hl0] at hc
        simp only [Option.map_some'] at hc
        obtain ⟨l, hl, hcr⟩ := get_layer_applyUpsert name s' v
        rw [List.foldl_cons]
        apply ih
        rw [hl]
        simp only [Option.map_some', Option.some_inj]
        rw [hcr, hl0]
        simpa using hc
  rw [List.foldl_cons]
  obtain ⟨l, hl, hcr⟩ := get_layer_applyUpsert name s u
  apply step
  rw [hl]
  simp only [Option.map_some', Option.some_inj]
  rw [hcr, h]

/-- C8 witness: the theorem applied to two consecutive upserts of `p1` at
times 5 and 9 on a fresh session: the stored creation time stays 5. -/
theorem C8_witness :
    FoxDotSession.get_layer emptySession "p1" = none ∧
    (FoxDotSession.get_layer
        ([upsertA, upsertB].foldl (applyUpsert "p1") emptySession) "p1").map
      (fun l => l.created_at) = some 5 :=
  ⟨rfl, C8_theorem emptySession "p1" upsertA [upsertB] rfl⟩

/-! ### Claim C9 -/

/-- C9, counterexample: the claim says `needs_consolidation()` is false
immediately after a successful consolidation with a non-empty summary.  For
the concrete manager `cmBig` (ceiling 100, one kept turn of 1000 tokens) and
the non-empty summary `"a summary"`, `needs_consolidation()` is still true
after consolidation: the kept turns alone exceed the threshold. -/
theorem C9_counterexample :
    "a summary" ≠ "" ∧
    (cmBig.consolidate "a summary").needs_consolidation = true :=
  ⟨by decide, by decide⟩

/-- C9 (amended): `needsConsolidation()` is true iff the running size total
strictly exceeds `maxSize * consolidationThreshold`; immediately after
`applyConsolidation(s)` it is false iff the sum of the kept turns' estimates
plus the summary's own estimate does not exceed that product — it is not
unconditionally false. -/
theorem C9_theorem (cm : ContextManager) (s : String) :
    (cm.needs_consolidation = true ↔
      (cm.total_tokens : ℚ) > (cm.max_tokens : ℚ) * cm.consolidation_threshold) ∧
    ((cm.consolidate s).needs_consolidation = true ↔
      ((((pySliceLast cm.keep_recent_turns cm.turns).map
          (fun t => t.token_count)).sum + estimate_tokens s : Nat) : ℚ)
        > (cm.max_tokens : ℚ) * cm.consolidation_threshold) := by
  refine ⟨needs_consolidation_iff cm, ?_⟩
  simpa [ContextManager.consolidate] using needs_consolidation_iff (cm.consolidate s)

/-! ### Claim C10 -/

/-- C10: upserting an existing layer name replaces the stored Layer
wholesale: every musical attribute of the stored Layer comes solely from the
new call's arguments (omitted optional attributes are `None`/empty defaults
of the same parameters), the lifecycle state is reset to playing, the
modification time is the new timestamp, and only `created_at` is carried
over from the previous Layer. -/
theorem C10_theorem (s : FoxDotSession) (now : Nat)
    (name synth code description : String) (notes : Option (List Int))
    (pattern : Option String) (dur : Option String) (amp : Option ℚ)
    (oct : Option Int) (effects : Args) (old : Layer)
    (h : FoxDotSession.get_layer s name = some old) :
    FoxDotSession.get_layer
        (FoxDotSession.add_layer s now name synth code description notes pattern
          dur amp oct effects).2 name
      = some (FoxDotSession.add_layer s now name synth code description notes
          pattern dur amp oct effects).1 ∧
    (FoxDotSession.add_layer s now name synth code description notes pattern dur
        amp oct effects).1
      = { player_name := name, synth := synth, code := code,
          description := description, state := PlayerState.playing,
          created_at := old.created_at, modified_at := now, notes := notes,
          pattern := pattern, dur := dur, amp := amp, oct := oct,
          effects := effects } := by
  have hd : dictGet s.music_state.active_layers name = some old := h
  constructor
  · simp [FoxDotSession.add_layer, FoxDotSession.get_layer, h, hd,
      dictGet_dictSet_self]
  · simp [FoxDotSession.add_layer, h, hd]

/-- C10 witness: the theorem applied to a second upsert of `p1` (at time 9,
with every optional attribute omitted) over the session holding `layerP1`
(created at time 3). -/
theorem C10_witness :
    FoxDotSession.get_layer
        (FoxDotSession.add_layer sessionP1 9 "p1" "keys" "c2" "d2" none none none
          none none []).2 "p1"
      = some (FoxDotSession.add_layer sessionP1 9 "p1" "keys" "c2" "d2" none none
          none none none []).1 ∧
    (FoxDotSession.add_layer sessionP1 9 "p1" "keys" "c2" "d2" none none none
        none none []).1
      = { player_name := "p1", synth := "keys", code := "c2", description := "d2",
          state := PlayerState.playing, created_at := layerP1.created_at,
          modified_at := 9, notes := none, pattern := none, dur := none,
          amp := none, oct := none, effects := [] } :=
  C10_theorem sessionP1 9 "p1" "keys" "c2" "d2" none none none none none []
    layerP1 rfl

end FoxDotSpec
